import Mathlib

/-!
Shallow embedding of the "Bao Retro Camera" application state machine.

The application keeps four pieces of state (App.tsx): the wall photo list
`photos`, the `stagedPhoto` slot inside the camera, a `cameraError` string,
and the single-pointer `dragState`.  Pixel coordinates are JavaScript
numbers; we model them as rationals so that the one fractional constant in
the source (`PHOTO_HEIGHT * 0.25`, `rect.width / 2`) is exact.  The two
asynchronous side effects started by `takePhoto` (the caption fetch and the
developing timer) are modelled as explicit completion steps
(`captionComplete`, `devTimerFire`) on the state, and `takePhoto` reports
which effects it starts as an explicit list.
-/

namespace BaoRetroCamera

/-- Pixel position of a wall photo (types.ts `Position`). -/
structure Position where
  x : ℚ
  y : ℚ
deriving DecidableEq, Repr

/-- One photo record (types.ts `PhotoData`). -/
structure PhotoData where
  id : String
  dataUrl : String
  caption : String
  date : String
  position : Position
  zIndex : ℤ
  isDeveloping : Bool
  isLoadingCaption : Bool
deriving DecidableEq, Repr

/-- The single-pointer drag tracker state (App.tsx `dragState`). -/
structure DragState where
  id : String
  startX : ℚ
  startY : ℚ
  initialPhotoPos : Position
deriving DecidableEq, Repr

/-- A browser mouse event, reduced to the fields the handlers read. -/
structure MouseEvent where
  clientX : ℚ
  clientY : ℚ
deriving DecidableEq, Repr

/-- The bounding rectangle of the camera container read in
`handleStagedMouseDown`. -/
structure Rect where
  left : ℚ
  top : ℚ
  width : ℚ
deriving DecidableEq, Repr

/-- The whole React state of `App`. -/
structure AppState where
  photos : List PhotoData
  stagedPhoto : Option PhotoData
  cameraError : Option String
  dragState : Option DragState
deriving DecidableEq, Repr

/-- Layout constant `PHOTO_WIDTH = 240`. -/
def PHOTO_WIDTH : ℚ := 240

/-- Layout constant `PHOTO_HEIGHT = 320`. -/
def PHOTO_HEIGHT : ℚ := 320

/-- The dimensions of the video element that `takePhoto` inspects;
`present = false` models a null `videoRef.current`. -/
structure VideoInfo where
  present : Bool
  videoWidth : ℚ
  videoHeight : ℚ
deriving DecidableEq, Repr

/-- The asynchronous side effects `takePhoto` can start: the caption fetch
(`generateCaption(dataUrl).then(...)`) and the developing-effect timer
(`setTimeout(..., 3500)`). -/
inductive Effect where
  | captionFetch (id : String) (dataUrl : String)
  | devTimer (id : String)
deriving DecidableEq, Repr

/-- The staged photo created by `takePhoto` (App.tsx lines 104-113). -/
def newStagedPhoto (newId dataUrl dateStr : String) : PhotoData :=
  { id := newId
    dataUrl := dataUrl
    caption := ""
    date := dateStr
    position := { x := 0, y := 0 }
    zIndex := 10
    isDeveloping := true
    isLoadingCaption := true }

/-- `takePhoto` (App.tsx lines 67-133).  The guard on line 68 returns early
when the video element is missing, a staged photo exists, or a camera error
is set; the guard on line 80 returns early when the video has zero width or
height.  Otherwise the captured photo is staged and the caption fetch and
the developing timer are started.  (The canvas 2d context is assumed
available; audio playback and canvas drawing are outside the modelled
state.) -/
def takePhoto (s : AppState) (vid : VideoInfo) (newId dataUrl dateStr : String) :
    AppState × List Effect :=
  if vid.present = false ∨ s.stagedPhoto.isSome ∨ s.cameraError.isSome then (s, [])
  else if vid.videoWidth = 0 ∨ vid.videoHeight = 0 then (s, [])
  else
    ({ s with stagedPhoto := some (newStagedPhoto newId dataUrl dateStr) },
      [Effect.captionFetch newId dataUrl, Effect.devTimer newId])

/-- The per-photo update applied when the caption fetch for photo `newId`
completes with `caption` (the local `updateFn` in `takePhoto`, line 120). -/
def captionUpdateFn (newId caption : String) (p : PhotoData) : PhotoData :=
  if p.id = newId then { p with caption := caption, isLoadingCaption := false } else p

/-- Completion of the caption fetch started by `takePhoto` (lines 118-124):
updates the staged photo if it still has the fetched id, and maps the
update over the wall list. -/
def captionComplete (newId caption : String) (s : AppState) : AppState :=
  { s with
    stagedPhoto := s.stagedPhoto.map (fun prev =>
      if prev.id = newId then captionUpdateFn newId caption prev else prev)
    photos := s.photos.map (captionUpdateFn newId caption) }

/-- The per-photo update applied when the developing timer for photo
`newId` fires (the local `clearDevFn` in `takePhoto`, line 128). -/
def clearDevFn (newId : String) (p : PhotoData) : PhotoData :=
  if p.id = newId then { p with isDeveloping := false } else p

/-- Firing of the developing-effect timer started by `takePhoto`
(lines 127-131). -/
def devTimerFire (newId : String) (s : AppState) : AppState :=
  { s with
    stagedPhoto := s.stagedPhoto.map (fun prev =>
      if prev.id = newId then clearDevFn newId prev else prev)
    photos := s.photos.map (clearDevFn newId) }

/-- `handleStagedMouseDown` (App.tsx lines 138-180): promotes the staged
photo to the wall at a position computed from the camera container
rectangle, gives it `zIndex` 100, empties the staged slot, appends it to
the wall list, and starts a drag on it. -/
def handleStagedMouseDown (s : AppState) (rect : Rect) (e : MouseEvent) : AppState :=
  match s.stagedPhoto with
  | none => s
  | some staged =>
    let photoCenterX := rect.left + rect.width / 2
    let photoCenterY := rect.top - PHOTO_HEIGHT * (1 / 4)
    let wallPhoto : PhotoData :=
      { staged with
        position := { x := photoCenterX - PHOTO_WIDTH / 2, y := photoCenterY }
        zIndex := 100 }
    { s with
      stagedPhoto := none
      photos := s.photos ++ [wallPhoto]
      dragState := some
        { id := wallPhoto.id
          startX := e.clientX
          startY := e.clientY
          initialPhotoPos := wallPhoto.position } }

/-- The new z-index `Math.max(...photos.map(p => p.zIndex), 100) + 1`
computed in `handleWallMouseDown` (line 188). -/
def maxZAfter (photos : List PhotoData) : ℤ :=
  (photos.map PhotoData.zIndex).foldr max 100 + 1

/-- `handleWallMouseDown` (App.tsx lines 183-197): brings the clicked wall
photo to the front and starts a drag on it. -/
def handleWallMouseDown (s : AppState) (photo : PhotoData) (e : MouseEvent) : AppState :=
  let maxZ := maxZAfter s.photos
  { s with
    photos := s.photos.map (fun p => if p.id = photo.id then { p with zIndex := maxZ } else p)
    dragState := some
      { id := photo.id
        startX := e.clientX
        startY := e.clientY
        initialPhotoPos := photo.position } }

/-- The per-photo update applied by a global mouse move while drag `d` is
active (the map body in `handleGlobalMouseMove`, lines 206-217). -/
def dragUpdateFn (d : DragState) (cx cy : ℚ) (p : PhotoData) : PhotoData :=
  if p.id = d.id then
    { p with position :=
        { x := d.initialPhotoPos.x + (cx - d.startX)
          y := d.initialPhotoPos.y + (cy - d.startY) } }
  else p

/-- `handleGlobalMouseMove` (App.tsx lines 200-218): with no active drag it
does nothing; with an active drag it repositions the dragged photo by the
pointer delta from the drag start. -/
def handleGlobalMouseMove (e : MouseEvent) (s : AppState) : AppState :=
  match s.dragState with
  | none => s
  | some d => { s with photos := s.photos.map (dragUpdateFn d e.clientX e.clientY) }

/-- `handleGlobalMouseUp` (App.tsx lines 221-223). -/
def handleGlobalMouseUp (s : AppState) : AppState :=
  { s with dragState := none }

/-- A `Partial<PhotoData>` object: each present field overrides the
photo's field (types.ts / `updatePhoto`). -/
structure PhotoUpdates where
  id : Option String := none
  dataUrl : Option String := none
  caption : Option String := none
  date : Option String := none
  position : Option Position := none
  zIndex : Option ℤ := none
  isDeveloping : Option Bool := none
  isLoadingCaption : Option Bool := none
deriving DecidableEq, Repr

/-- JavaScript object spread `{ ...p, ...updates }` for a photo record. -/
def applyUpdates (u : PhotoUpdates) (p : PhotoData) : PhotoData :=
  { id := u.id.getD p.id
    dataUrl := u.dataUrl.getD p.dataUrl
    caption := u.caption.getD p.caption
    date := u.date.getD p.date
    position := u.position.getD p.position
    zIndex := u.zIndex.getD p.zIndex
    isDeveloping := u.isDeveloping.getD p.isDeveloping
    isLoadingCaption := u.isLoadingCaption.getD p.isLoadingCaption }

/-- `updatePhoto` (App.tsx lines 241-243). -/
def updatePhoto (s : AppState) (id : String) (u : PhotoUpdates) : AppState :=
  { s with photos := s.photos.map (fun p => if p.id = id then applyUpdates u p else p) }

/-- `deletePhoto` (App.tsx lines 245-247). -/
def deletePhoto (s : AppState) (id : String) : AppState :=
  { s with photos := s.photos.filter (fun p => p.id != id) }

/-- The local state of one `Polaroid` component (Polaroid.tsx). -/
structure PolaroidLocal where
  isHovering : Bool
  isEditing : Bool
  editText : String
deriving DecidableEq, Repr

/-- `saveEdit` (Polaroid.tsx lines 73-76): commits the edit buffer as the
photo's caption via `onUpdate` = `updatePhoto` and leaves edit mode. -/
def saveEdit (s : AppState) (photoId : String) (loc : PolaroidLocal) :
    AppState × PolaroidLocal :=
  (updatePhoto s photoId { caption := some loc.editText }, { loc with isEditing := false })

/-- `cancelEdit` (Polaroid.tsx lines 78-81): resets the edit buffer to the
photo's current caption and leaves edit mode; it performs no `onUpdate`,
so the application state is returned untouched. -/
def cancelEdit (s : AppState) (photo : PhotoData) (loc : PolaroidLocal) :
    AppState × PolaroidLocal :=
  (s, { loc with editText := photo.caption, isEditing := false })

/-- The outcome of the external Gemini call in `generateCaption`: the call
either throws, or resolves with an optional `text` field. -/
inductive ApiResult where
  | threw
  | ok (text : Option String)
deriving DecidableEq, Repr

/-- JavaScript `String.prototype.trim`: drops whitespace from both ends of
the string. -/
def jsTrim (s : String) : String :=
  String.mk (((s.data.dropWhile Char.isWhitespace).reverse.dropWhile
    Char.isWhitespace).reverse)

/-- `generateCaption` (geminiService.ts lines 11-46).  With no API key it
returns "Memories are timeless..."; when the call throws it returns
"A moment frozen in time."; `response.text?.trim() || fallback` returns
"A beautiful moment captured." when `text` is absent or trims to the empty
string, and the trimmed text otherwise.  Every control path returns a
string, so the promise never rejects; the embedding is correspondingly a
total function. -/
def generateCaption (apiKeyPresent : Bool) (result : ApiResult) : String :=
  if apiKeyPresent = false then "Memories are timeless..."
  else
    match result with
    | ApiResult.threw => "A moment frozen in time."
    | ApiResult.ok none => "A beautiful moment captured."
    | ApiResult.ok (some t) =>
      if jsTrim t = "" then "A beautiful moment captured." else jsTrim t

/-! ### Example data used by the witness theorems -/

/-- A wall photo with id "7". -/
def exPhotoA : PhotoData :=
  { id := "7", dataUrl := "dataA", caption := "hello", date := "Jan 1, 2026"
    position := { x := 10, y := 20 }, zIndex := 100
    isDeveloping := false, isLoadingCaption := true }

/-- A wall photo with id "8". -/
def exPhotoB : PhotoData :=
  { id := "8", dataUrl := "dataB", caption := "sea", date := "Jan 2, 2026"
    position := { x := 30, y := 40 }, zIndex := 105
    isDeveloping := true, isLoadingCaption := false }

/-- A staged photo with id "9". -/
def exPhotoC : PhotoData :=
  { id := "9", dataUrl := "dataC", caption := "", date := "Jan 3, 2026"
    position := { x := 0, y := 0 }, zIndex := 10
    isDeveloping := true, isLoadingCaption := true }

/-- A state with two wall photos and a staged photo. -/
def exState : AppState :=
  { photos := [exPhotoA, exPhotoB], stagedPhoto := some exPhotoC
    cameraError := none, dragState := none }

/-! ### C1: caption-fetch completion targets the photo by id -/

/-- C1: When the caption fetch started by `takePhoto` for the photo with id
`n` completes with caption `c`, the completion step sets `caption := c` and
`isLoadingCaption := false` on the photo with id `n` wherever it resides:
on the staged slot if the staged photo still has id `n`, and on every wall
photo with id `n`.  All other fields of that photo, every photo with a
different id, and the rest of the state are unchanged. -/
theorem captionComplete_targets_photo_by_id (s : AppState) (n c : String) :
    (∀ (i : ℕ) (p : PhotoData), s.photos[i]? = some p →
      (p.id = n → (captionComplete n c s).photos[i]? =
        some { p with caption := c, isLoadingCaption := false }) ∧
      (p.id ≠ n → (captionComplete n c s).photos[i]? = some p)) ∧
    (∀ p : PhotoData, s.stagedPhoto = some p → p.id = n →
      (captionComplete n c s).stagedPhoto =
        some { p with caption := c, isLoadingCaption := false }) ∧
    (∀ p : PhotoData, s.stagedPhoto = some p → p.id ≠ n →
      (captionComplete n c s).stagedPhoto = some p) ∧
    (s.stagedPhoto = none → (captionComplete n c s).stagedPhoto = none) ∧
    (captionComplete n c s).photos.length = s.photos.length ∧
    (captionComplete n c s).cameraError = s.cameraError ∧
    (captionComplete n c s).dragState = s.dragState := by
  refine ⟨fun i p hp => ⟨fun hid => ?_, fun hid => ?_⟩, fun p hp hid => ?_,
    fun p hp hid => ?_, fun hp => ?_, ?_, rfl, rfl⟩
  · simp [captionComplete, List.getElem?_map, hp, captionUpdateFn, hid]
  · simp [captionComplete, List.getElem?_map, hp, captionUpdateFn, hid]
  · simp [captionComplete, hp, captionUpdateFn, hid]
  · simp [captionComplete, hp, captionUpdateFn, hid]
  · simp [captionComplete, hp]
  · simp [captionComplete]

/-- Witness for C1 at a concrete state: the wall photo with the fetched id
receives the caption and stops loading, the wall photo with another id is
untouched, and the staged photo with the fetched id receives it too. -/
theorem captionComplete_targets_photo_by_id_witness :
    (captionComplete "7" "sunny day" exState).photos[0]? =
      some { exPhotoA with caption := "sunny day", isLoadingCaption := false } ∧
    (captionComplete "7" "sunny day" exState).photos[1]? = some exPhotoB ∧
    (captionComplete "9" "warm light" exState).stagedPhoto =
      some { exPhotoC with caption := "warm light", isLoadingCaption := false } :=
  ⟨((captionComplete_targets_photo_by_id exState "7" "sunny day").1 0 exPhotoA rfl).1 rfl,
   ((captionComplete_targets_photo_by_id exState "7" "sunny day").1 1 exPhotoB rfl).2 (by decide),
   (captionComplete_targets_photo_by_id exState "9" "warm light").2.1 exPhotoC rfl rfl⟩

/-! ### C2: the developing lifecycle -/

/-- A state with two wall photos, an empty staged slot and no camera
error. -/
def exStateReady : AppState :=
  { photos := [exPhotoA, exPhotoB], stagedPhoto := none
    cameraError := none, dragState := none }

/-- A present video element with nonzero dimensions. -/
def exVideo : VideoInfo :=
  { present := true, videoWidth := 640, videoHeight := 480 }

/-- C2: A successful `takePhoto` creates the staged photo with
`isDeveloping = true`, `isLoadingCaption = true` and empty caption, and
the timer step `devTimerFire` sets `isDeveloping` to `false` for the photo
with that id — whether it is still staged or already on the wall —
changing no other field of that photo, no other photo, and no other
state. -/
theorem takePhoto_develops_then_timer_clears :
    (∀ (s : AppState) (vid : VideoInfo) (newId dataUrl dateStr : String),
      s.stagedPhoto = none → s.cameraError = none → vid.present = true →
      vid.videoWidth ≠ 0 → vid.videoHeight ≠ 0 →
      (takePhoto s vid newId dataUrl dateStr).1.stagedPhoto =
        some { id := newId, dataUrl := dataUrl, caption := "", date := dateStr
               position := { x := 0, y := 0 }, zIndex := 10
               isDeveloping := true, isLoadingCaption := true }) ∧
    (∀ (s : AppState) (n : String),
      (∀ (i : ℕ) (p : PhotoData), s.photos[i]? = some p →
        (p.id = n → (devTimerFire n s).photos[i]? =
          some { p with isDeveloping := false }) ∧
        (p.id ≠ n → (devTimerFire n s).photos[i]? = some p)) ∧
      (∀ p : PhotoData, s.stagedPhoto = some p → p.id = n →
        (devTimerFire n s).stagedPhoto = some { p with isDeveloping := false }) ∧
      (∀ p : PhotoData, s.stagedPhoto = some p → p.id ≠ n →
        (devTimerFire n s).stagedPhoto = some p) ∧
      (devTimerFire n s).photos.length = s.photos.length ∧
      (devTimerFire n s).cameraError = s.cameraError ∧
      (devTimerFire n s).dragState = s.dragState) := by
  constructor
  · intro s vid newId dataUrl dateStr hst herr hpres hw hh
    simp [takePhoto, hst, herr, hpres, hw, hh, newStagedPhoto]
  · intro s n
    refine ⟨fun i p hp => ⟨fun hid => ?_, fun hid => ?_⟩,
      fun p hp hid => ?_, fun p hp hid => ?_, ?_, rfl, rfl⟩
    · simp [devTimerFire, List.getElem?_map, hp, clearDevFn, hid]
    · simp [devTimerFire, List.getElem?_map, hp, clearDevFn, hid]
    · simp [devTimerFire, hp, clearDevFn, hid]
    · simp [devTimerFire, hp, clearDevFn, hid]
    · simp [devTimerFire]

/-- Witness for C2 at concrete inputs: a shot from `exStateReady` stages a
developing, caption-loading photo with empty caption, and firing the timer
for id "8" clears `isDeveloping` on the wall photo with id "8" while
leaving the photo with id "7" untouched. -/
theorem takePhoto_develops_then_timer_clears_witness :
    (takePhoto exStateReady exVideo "42" "dataNew" "Feb 5, 2026").1.stagedPhoto =
      some { id := "42", dataUrl := "dataNew", caption := "", date := "Feb 5, 2026"
             position := { x := 0, y := 0 }, zIndex := 10
             isDeveloping := true, isLoadingCaption := true } ∧
    (devTimerFire "8" exState).photos[1]? = some { exPhotoB with isDeveloping := false } ∧
    (devTimerFire "8" exState).photos[0]? = some exPhotoA :=
  ⟨takePhoto_develops_then_timer_clears.1 exStateReady exVideo "42" "dataNew" "Feb 5, 2026"
      rfl rfl rfl (by decide) (by decide),
   ((takePhoto_develops_then_timer_clears.2 exState "8").1 1 exPhotoB rfl).1 rfl,
   ((takePhoto_develops_then_timer_clears.2 exState "8").1 0 exPhotoA rfl).2 (by decide)⟩

/-! ### C3: the drag tracker is single-pointer and frame-respecting -/

/-- A state with an active drag on the photo with id "7". -/
def exDrag : DragState :=
  { id := "7", startX := 100, startY := 200, initialPhotoPos := { x := 10, y := 20 } }

/-- A state with two wall photos and an active drag on id "7". -/
def exStateDragging : AppState :=
  { photos := [exPhotoA, exPhotoB], stagedPhoto := none
    cameraError := none, dragState := some exDrag }

/-- C3: The drag state holds at most one photo id at any time, a global
mouse move while a drag with id `d.id` is active leaves every photo with a
different id entirely unchanged (as well as the staged slot, the camera
error and the drag state itself), and a mouse move with no active drag
changes nothing. -/
theorem mouseMove_single_pointer (s : AppState) (e : MouseEvent) :
    (∀ d₁ d₂ : DragState, s.dragState = some d₁ → s.dragState = some d₂ → d₁ = d₂) ∧
    (s.dragState = none → handleGlobalMouseMove e s = s) ∧
    (∀ d : DragState, s.dragState = some d →
      (∀ (i : ℕ) (p : PhotoData), s.photos[i]? = some p → p.id ≠ d.id →
        (handleGlobalMouseMove e s).photos[i]? = some p) ∧
      (handleGlobalMouseMove e s).stagedPhoto = s.stagedPhoto ∧
      (handleGlobalMouseMove e s).cameraError = s.cameraError ∧
      (handleGlobalMouseMove e s).dragState = s.dragState ∧
      (handleGlobalMouseMove e s).photos.length = s.photos.length) := by
  refine ⟨fun d₁ d₂ h₁ h₂ => by rw [h₁] at h₂; exact Option.some_inj.mp h₂,
    fun hd => ?_, fun d hd => ?_⟩
  · simp [handleGlobalMouseMove, hd]
  · refine ⟨fun i p hp hid => ?_, ?_, ?_, ?_, ?_⟩
    · simp [handleGlobalMouseMove, hd, List.getElem?_map, hp, dragUpdateFn, hid]
    · simp [handleGlobalMouseMove, hd]
    · simp [handleGlobalMouseMove, hd]
    · simp [handleGlobalMouseMove, hd]
    · simp [handleGlobalMouseMove, hd]

/-- Witness for C3 at a concrete state: while id "7" is being dragged, a
move leaves the photo with id "8" untouched, and with no active drag a
move is the identity. -/
theorem mouseMove_single_pointer_witness :
    (handleGlobalMouseMove { clientX := 300, clientY := 400 } exStateDragging).photos[1]? =
      some exPhotoB ∧
    handleGlobalMouseMove { clientX := 300, clientY := 400 } exStateReady = exStateReady :=
  ⟨((mouseMove_single_pointer exStateDragging { clientX := 300, clientY := 400 }).2.2
      exDrag rfl).1 1 exPhotoB rfl (by decide),
   (mouseMove_single_pointer exStateReady { clientX := 300, clientY := 400 }).2.1 rfl⟩

/-! ### C4: the drag position formula and path independence -/

/-- One global mouse move, curried for folding over a pointer path. -/
def moveStep (s : AppState) (c : ℚ × ℚ) : AppState :=
  handleGlobalMouseMove { clientX := c.1, clientY := c.2 } s

/-- A later move overwrites an earlier one: the dragged photo's position is
recomputed from the drag-start data, not from the current position. -/
theorem moveStep_moveStep (s : AppState) (c₁ c₂ : ℚ × ℚ) :
    moveStep (moveStep s c₁) c₂ = moveStep s c₂ := by
  cases hd : s.dragState with
  | none => simp [moveStep, handleGlobalMouseMove, hd]
  | some d =>
    simp only [moveStep, handleGlobalMouseMove, hd, List.map_map]
    have hmap : List.map (dragUpdateFn d c₂.1 c₂.2 ∘ dragUpdateFn d c₁.1 c₁.2) s.photos =
        List.map (dragUpdateFn d c₂.1 c₂.2) s.photos :=
      List.map_congr_left fun p _ => by
        by_cases hp : p.id = d.id <;> simp [dragUpdateFn, hp]
    rw [hmap]

/-- C4: With a drag active that started at pointer `(d.startX, d.startY)`
and photo position `d.initialPhotoPos`, a mouse move to `(cx, cy)` puts the
dragged photo at `(initialPhotoPos.x + cx − startX, initialPhotoPos.y + cy −
startY)`; and the state after any nonempty sequence of mouse moves equals
the state after the last move alone, so the result depends only on the
final pointer position. -/
theorem mouseMove_formula_path_independent :
    (∀ (s : AppState) (d : DragState) (e : MouseEvent) (i : ℕ) (p : PhotoData),
      s.dragState = some d → s.photos[i]? = some p → p.id = d.id →
      (handleGlobalMouseMove e s).photos[i]? =
        some { p with position :=
          { x := d.initialPhotoPos.x + (e.clientX - d.startX)
            y := d.initialPhotoPos.y + (e.clientY - d.startY) } }) ∧
    (∀ (s : AppState) (ms : List (ℚ × ℚ)) (h : ms ≠ []),
      ms.foldl moveStep s = moveStep s (ms.getLast h)) := by
  constructor
  · intro s d e i p hd hp hid
    simp [handleGlobalMouseMove, hd, List.getElem?_map, hp, dragUpdateFn, hid]
  · intro s ms
    induction ms generalizing s with
    | nil => intro h; exact absurd rfl h
    | cons c ms ih =>
      intro h
      cases ms with
      | nil => simp
      | cons c₂ ms₂ =>
        rw [List.foldl_cons, ih (moveStep s c) (List.cons_ne_nil c₂ ms₂),
          moveStep_moveStep, List.getLast_cons (List.cons_ne_nil c₂ ms₂)]

/-- Witness for C4 at concrete inputs: dragging id "7" (grabbed at
(100, 200) with the photo at (10, 20)) to pointer (300, 250) puts the photo
at (210, 70), and folding a three-move path equals applying only the last
move. -/
theorem mouseMove_formula_path_independent_witness :
    (handleGlobalMouseMove { clientX := 300, clientY := 250 } exStateDragging).photos[0]? =
      some { exPhotoA with position := { x := 210, y := 70 } } ∧
    [((150 : ℚ), (160 : ℚ)), (170, 180), (300, 250)].foldl moveStep exStateDragging =
      moveStep exStateDragging (300, 250) := by
  constructor
  · exact (mouseMove_formula_path_independent.1 exStateDragging exDrag
      { clientX := 300, clientY := 250 } 0 exPhotoA rfl rfl rfl).trans (by
        norm_num [exDrag, exPhotoA])
  · exact mouseMove_formula_path_independent.2 exStateDragging
      [(150, 160), (170, 180), (300, 250)] (by simp)

/-! ### C5: promotion from the staged slot to the wall -/

/-- C5: A mouse down on the staged photo empties the staged slot and
appends the staged photo to the end of the wall list, preserving its `id`,
`dataUrl`, `caption`, `date`, `isDeveloping` and `isLoadingCaption` fields
and changing only its `position` (recomputed from the camera container
rectangle) and its `zIndex` (which becomes 100); every photo already on
the wall is unchanged, and with an empty staged slot the handler does
nothing. -/
theorem stagedMouseDown_promotes_to_wall (s : AppState) (rect : Rect) (e : MouseEvent) :
    (s.stagedPhoto = none → handleStagedMouseDown s rect e = s) ∧
    (∀ st : PhotoData, s.stagedPhoto = some st →
      (handleStagedMouseDown s rect e).stagedPhoto = none ∧
      (handleStagedMouseDown s rect e).photos = s.photos ++
        [{ st with
            position := { x := rect.left + rect.width / 2 - PHOTO_WIDTH / 2
                          y := rect.top - PHOTO_HEIGHT * (1 / 4) }
            zIndex := 100 }] ∧
      (handleStagedMouseDown s rect e).cameraError = s.cameraError) := by
  refine ⟨fun hst => ?_, fun st hst => ?_⟩
  · simp [handleStagedMouseDown, hst]
  · refine ⟨?_, ?_, ?_⟩ <;> simp [handleStagedMouseDown, hst]

/-- Witness for C5 at a concrete state: promoting the staged photo of
`exState` empties the slot and appends it to the wall with only position
and z-index changed. -/
theorem stagedMouseDown_promotes_to_wall_witness :
    (handleStagedMouseDown exState { left := 64, top := 500, width := 450 }
        { clientX := 280, clientY := 430 }).stagedPhoto = none ∧
    (handleStagedMouseDown exState { left := 64, top := 500, width := 450 }
        { clientX := 280, clientY := 430 }).photos = exState.photos ++
      [{ exPhotoC with position := { x := 169, y := 420 }, zIndex := 100 }] :=
  ⟨((stagedMouseDown_promotes_to_wall exState { left := 64, top := 500, width := 450 }
      { clientX := 280, clientY := 430 }).2 exPhotoC rfl).1,
   (((stagedMouseDown_promotes_to_wall exState { left := 64, top := 500, width := 450 }
      { clientX := 280, clientY := 430 }).2 exPhotoC rfl).2.1).trans (by
        norm_num [exPhotoC, PHOTO_WIDTH, PHOTO_HEIGHT])⟩

/-! ### C6: deletePhoto removes exactly the photos with the given id -/

/-- C6: `deletePhoto id` removes exactly those wall photos whose id equals
the given id: every surviving photo has a different id, the survivors form
a sublist of the original wall (so their relative order is preserved),
every photo with a different id survives, the number of survivors is
exactly the number of photos with a different id, the wall is unchanged
when no photo has the id, and the rest of the state is untouched. -/
theorem deletePhoto_removes_exactly_id (s : AppState) (n : String) :
    (∀ p ∈ (deletePhoto s n).photos, p.id ≠ n) ∧
    List.Sublist (deletePhoto s n).photos s.photos ∧
    (∀ p ∈ s.photos, p.id ≠ n → p ∈ (deletePhoto s n).photos) ∧
    (deletePhoto s n).photos.length = s.photos.countP (fun p => p.id != n) ∧
    ((∀ p ∈ s.photos, p.id ≠ n) → (deletePhoto s n).photos = s.photos) ∧
    (deletePhoto s n).stagedPhoto = s.stagedPhoto ∧
    (deletePhoto s n).cameraError = s.cameraError ∧
    (deletePhoto s n).dragState = s.dragState := by
  refine ⟨fun p hp => ?_, ?_, fun p hp hid => ?_, ?_, fun hall => ?_, rfl, rfl, rfl⟩
  · have hmem : p ∈ List.filter (fun q => q.id != n) s.photos := by
      simpa [deletePhoto] using hp
    simpa using List.of_mem_filter hmem
  · simp only [deletePhoto]
    exact List.filter_sublist s.photos
  · simp only [deletePhoto, List.mem_filter]
    exact ⟨hp, by simpa using hid⟩
  · simpa [deletePhoto] using
      (List.countP_eq_length_filter (fun p => p.id != n) s.photos).symm
  · simp only [deletePhoto]
    refine List.filter_eq_self.mpr fun p hp => ?_
    simpa using hall p hp

/-- Witness for C6 at a concrete state: deleting id "7" keeps exactly the
photo with id "8", and deleting an absent id leaves the wall unchanged. -/
theorem deletePhoto_removes_exactly_id_witness :
    exPhotoB ∈ (deletePhoto exState "7").photos ∧
    (deletePhoto exState "7").photos.length = 1 ∧
    (deletePhoto exState "99").photos = exState.photos :=
  ⟨(deletePhoto_removes_exactly_id exState "7").2.2.1 exPhotoB (by decide) (by decide),
   ((deletePhoto_removes_exactly_id exState "7").2.2.2.1).trans (by decide),
   (deletePhoto_removes_exactly_id exState "99").2.2.2.2.1 (by decide)⟩

/-! ### C7: saving and canceling a caption edit -/

/-- An edit session in progress on a `Polaroid`. -/
def exLocal : PolaroidLocal :=
  { isHovering := true, isEditing := true, editText := "new words" }

/-- C7: Saving a caption edit sets exactly the edited photo's caption to
the edit buffer — every other field of that photo, every photo with a
different id, and the rest of the application state are unchanged — while
canceling an edit resets the edit buffer to the photo's current caption
and leaves the application state (hence every photo record) untouched. -/
theorem saveEdit_cancelEdit_effects :
    (∀ (s : AppState) (pid : String) (loc : PolaroidLocal),
      (∀ (i : ℕ) (p : PhotoData), s.photos[i]? = some p →
        (p.id = pid → (saveEdit s pid loc).1.photos[i]? =
          some { p with caption := loc.editText }) ∧
        (p.id ≠ pid → (saveEdit s pid loc).1.photos[i]? = some p)) ∧
      (saveEdit s pid loc).1.stagedPhoto = s.stagedPhoto ∧
      (saveEdit s pid loc).1.cameraError = s.cameraError ∧
      (saveEdit s pid loc).1.dragState = s.dragState ∧
      (saveEdit s pid loc).1.photos.length = s.photos.length ∧
      (saveEdit s pid loc).2.isEditing = false) ∧
    (∀ (s : AppState) (photo : PhotoData) (loc : PolaroidLocal),
      (cancelEdit s photo loc).1 = s ∧
      (cancelEdit s photo loc).2.editText = photo.caption ∧
      (cancelEdit s photo loc).2.isEditing = false) := by
  constructor
  · intro s pid loc
    refine ⟨fun i p hp => ⟨fun hid => ?_, fun hid => ?_⟩, rfl, rfl, rfl, ?_, rfl⟩
    · simp [saveEdit, updatePhoto, List.getElem?_map, hp, hid, applyUpdates]
    · simp [saveEdit, updatePhoto, List.getElem?_map, hp, hid]
    · simp [saveEdit, updatePhoto]
  · exact fun s photo loc => ⟨rfl, rfl, rfl⟩

/-- Witness for C7 at a concrete state: saving an edit on id "7" replaces
only that caption, leaves id "8" untouched, and canceling restores the
edit buffer to the photo's caption without touching the state. -/
theorem saveEdit_cancelEdit_effects_witness :
    (saveEdit exState "7" exLocal).1.photos[0]? =
      some { exPhotoA with caption := "new words" } ∧
    (saveEdit exState "7" exLocal).1.photos[1]? = some exPhotoB ∧
    (cancelEdit exState exPhotoA exLocal).1 = exState ∧
    (cancelEdit exState exPhotoA exLocal).2.editText = "hello" :=
  ⟨((saveEdit_cancelEdit_effects.1 exState "7" exLocal).1 0 exPhotoA rfl).1 rfl,
   ((saveEdit_cancelEdit_effects.1 exState "7" exLocal).1 1 exPhotoB rfl).2 (by decide),
   (saveEdit_cancelEdit_effects.2 exState exPhotoA exLocal).1,
   ((saveEdit_cancelEdit_effects.2 exState exPhotoA exLocal).2.1).trans (by decide)⟩

/-! ### C8: generateCaption is total over its error cases -/

/-- C8: `generateCaption` always resolves to a non-empty string (the
embedding is a total function, matching that every control path of the
source returns): "Memories are timeless..." when the API key is missing,
"A moment frozen in time." when the external call throws, "A beautiful
moment captured." when the returned text is absent or trims to the empty
string, and the trimmed text otherwise. -/
theorem generateCaption_total_nonempty :
    (∀ (k : Bool) (r : ApiResult), generateCaption k r ≠ "") ∧
    (∀ r : ApiResult, generateCaption false r = "Memories are timeless...") ∧
    generateCaption true ApiResult.threw = "A moment frozen in time." ∧
    generateCaption true (ApiResult.ok none) = "A beautiful moment captured." ∧
    (∀ t : String, jsTrim t = "" →
      generateCaption true (ApiResult.ok (some t)) = "A beautiful moment captured.") ∧
    (∀ t : String, jsTrim t ≠ "" →
      generateCaption true (ApiResult.ok (some t)) = jsTrim t) := by
  refine ⟨fun k r => ?_, fun r => rfl, rfl, rfl, fun t ht => ?_, fun t ht => ?_⟩
  · cases k with
    | false => simp [generateCaption]
    | true =>
      cases r with
      | threw => simp [generateCaption]
      | ok text =>
        cases text with
        | none => simp [generateCaption]
        | some t =>
          by_cases ht : jsTrim t = "" <;> simp [generateCaption, ht]
  · simp [generateCaption, ht]
  · simp [generateCaption, ht]

/-- Witness for C8 at concrete inputs: each fallback case and the trimmed
success case, all non-empty. -/
theorem generateCaption_total_nonempty_witness :
    generateCaption false ApiResult.threw = "Memories are timeless..." ∧
    generateCaption true (ApiResult.ok (some "   ")) = "A beautiful moment captured." ∧
    generateCaption true (ApiResult.ok (some " a walk ")) = "a walk" ∧
    generateCaption true (ApiResult.ok (some " a walk ")) ≠ "" :=
  ⟨generateCaption_total_nonempty.2.1 ApiResult.threw,
   generateCaption_total_nonempty.2.2.2.2.1 "   " (by decide),
   (generateCaption_total_nonempty.2.2.2.2.2 " a walk " (by decide)).trans (by decide),
   generateCaption_total_nonempty.1 true (ApiResult.ok (some " a walk "))⟩

/-! ### C9: takePhoto is a no-op while a photo is staged, on camera error,
or with a degenerate video -/

/-- C9: At most one photo is staged at a time: `takePhoto` returns the
state unchanged and starts no asynchronous effect (neither the caption
fetch nor the developing timer) whenever a staged photo already exists, a
camera error is set, or the video element has zero width or height. -/
theorem takePhoto_noop_when_blocked (s : AppState) (vid : VideoInfo)
    (newId dataUrl dateStr : String)
    (h : s.stagedPhoto.isSome = true ∨ s.cameraError.isSome = true ∨
      vid.videoWidth = 0 ∨ vid.videoHeight = 0) :
    takePhoto s vid newId dataUrl dateStr = (s, []) := by
  by_cases h₁ : vid.present = false ∨ s.stagedPhoto.isSome ∨ s.cameraError.isSome
  · simp [takePhoto, h₁]
  · have h₂ : vid.videoWidth = 0 ∨ vid.videoHeight = 0 := by
      rcases h with h | h | h | h
      · exact absurd (Or.inr (Or.inl h)) h₁
      · exact absurd (Or.inr (Or.inr h)) h₁
      · exact Or.inl h
      · exact Or.inr h
    simp [takePhoto, h₁, h₂]

/-- Witness for C9 at concrete states: with a photo already staged, and
with a zero-width video, `takePhoto` changes nothing and starts no
effect. -/
theorem takePhoto_noop_when_blocked_witness :
    takePhoto exState exVideo "42" "dataNew" "Feb 5, 2026" = (exState, []) ∧
    takePhoto exStateReady { present := true, videoWidth := 0, videoHeight := 480 }
      "42" "dataNew" "Feb 5, 2026" = (exStateReady, []) :=
  ⟨takePhoto_noop_when_blocked exState exVideo "42" "dataNew" "Feb 5, 2026"
      (Or.inl rfl),
   takePhoto_noop_when_blocked exStateReady
      { present := true, videoWidth := 0, videoHeight := 480 }
      "42" "dataNew" "Feb 5, 2026" (Or.inr (Or.inr (Or.inl rfl)))⟩

/-! ### C10: a wall mouse down brings the photo to the front -/

/-- The initial value of a right fold by `max` is a lower bound of the
fold. -/
theorem init_le_foldr_max (l : List ℤ) (b : ℤ) : b ≤ l.foldr max b := by
  induction l with
  | nil => exact le_refl b
  | cons a l ih => exact le_trans ih (le_max_right a (l.foldr max b))

/-- Every member of the list is a lower bound of a right fold by `max`. -/
theorem mem_le_foldr_max {a : ℤ} {l : List ℤ} (b : ℤ) (h : a ∈ l) :
    a ≤ l.foldr max b := by
  induction l with
  | nil => cases h
  | cons c l ih =>
    rcases List.mem_cons.mp h with h | h
    · exact h ▸ le_max_left c (l.foldr max b)
    · exact le_trans (ih h) (le_max_right c (l.foldr max b))

/-- A right fold by `max` is either its initial value or a member of the
list. -/
theorem foldr_max_eq_init_or_mem (l : List ℤ) (b : ℤ) :
    l.foldr max b = b ∨ l.foldr max b ∈ l := by
  induction l with
  | nil => exact Or.inl rfl
  | cons a l ih =>
    rcases max_choice a (l.foldr max b) with h | h
    · exact Or.inr (by rw [List.foldr_cons, h]; exact List.mem_cons_self a l)
    · rcases ih with h₂ | h₂
      · exact Or.inl (by rw [List.foldr_cons, h, h₂])
      · exact Or.inr (by rw [List.foldr_cons, h]; exact List.mem_cons_of_mem a h₂)

/-- C10: `handleWallMouseDown` on photo `p` sets the z-index of the wall
photo(s) with `p`'s id to `maxZAfter s.photos`, which is one plus the
maximum of 100 and all wall z-indexes (so at least 101, strictly above
every wall photo's previous z-index, and strictly above every wall photo
with a different id afterwards); nothing else about any photo, the staged
slot or the camera error changes. -/
theorem wallMouseDown_brings_to_front (s : AppState) (photo : PhotoData) (e : MouseEvent) :
    (∀ (i : ℕ) (p : PhotoData), s.photos[i]? = some p →
      (p.id = photo.id → (handleWallMouseDown s photo e).photos[i]? =
        some { p with zIndex := maxZAfter s.photos }) ∧
      (p.id ≠ photo.id → (handleWallMouseDown s photo e).photos[i]? = some p)) ∧
    101 ≤ maxZAfter s.photos ∧
    (∀ p ∈ s.photos, p.zIndex < maxZAfter s.photos) ∧
    (∀ q ∈ (handleWallMouseDown s photo e).photos, q.id ≠ photo.id →
      q.zIndex < maxZAfter s.photos) ∧
    (maxZAfter s.photos = 101 ∨
      ∃ p ∈ s.photos, maxZAfter s.photos = p.zIndex + 1) ∧
    (handleWallMouseDown s photo e).photos.length = s.photos.length ∧
    (handleWallMouseDown s photo e).stagedPhoto = s.stagedPhoto ∧
    (handleWallMouseDown s photo e).cameraError = s.cameraError := by
  have hmem : ∀ p ∈ s.photos, p.zIndex < maxZAfter s.photos := by
    intro p hp
    have : p.zIndex ≤ (s.photos.map PhotoData.zIndex).foldr max 100 :=
      mem_le_foldr_max 100 (List.mem_map_of_mem PhotoData.zIndex hp)
    exact lt_of_le_of_lt this (lt_add_one _)
  refine ⟨fun i p hp => ⟨fun hid => ?_, fun hid => ?_⟩, ?_, hmem, fun q hq hid => ?_,
    ?_, ?_, rfl, rfl⟩
  · simp [handleWallMouseDown, List.getElem?_map, hp, hid]
  · simp [handleWallMouseDown, List.getElem?_map, hp, hid]
  · have : (100 : ℤ) ≤ (s.photos.map PhotoData.zIndex).foldr max 100 :=
      init_le_foldr_max _ 100
    simpa [maxZAfter] using add_le_add_right this 1
  · simp only [handleWallMouseDown, List.mem_map] at hq
    obtain ⟨q₀, hq₀, hfq⟩ := hq
    by_cases h₀ : q₀.id = photo.id
    · rw [← hfq] at hid
      simp [h₀] at hid
    · rw [if_neg h₀] at hfq
      exact hfq ▸ hmem q₀ hq₀
  · rcases foldr_max_eq_init_or_mem (s.photos.map PhotoData.zIndex) 100 with h | h
    · exact Or.inl (by simp [maxZAfter, h])
    · obtain ⟨p, hp, hz⟩ := List.mem_map.mp h
      exact Or.inr ⟨p, hp, by simp [maxZAfter, ← hz]⟩
  · simp [handleWallMouseDown]

/-- Witness for C10 at a concrete state: clicking the photo with id "7"
(wall z-indexes 100 and 105) raises it to z-index 106, strictly above the
other photo, and leaves the photo with id "8" untouched. -/
theorem wallMouseDown_brings_to_front_witness :
    (handleWallMouseDown exStateReady exPhotoA { clientX := 15, clientY := 25 }).photos[0]? =
      some { exPhotoA with zIndex := 106 } ∧
    (handleWallMouseDown exStateReady exPhotoA { clientX := 15, clientY := 25 }).photos[1]? =
      some exPhotoB ∧
    exPhotoB.zIndex < maxZAfter exStateReady.photos :=
  ⟨(((wallMouseDown_brings_to_front exStateReady exPhotoA
      { clientX := 15, clientY := 25 }).1 0 exPhotoA rfl).1 rfl).trans (by decide),
   ((wallMouseDown_brings_to_front exStateReady exPhotoA
      { clientX := 15, clientY := 25 }).1 1 exPhotoB rfl).2 (by decide),
   (wallMouseDown_brings_to_front exStateReady exPhotoA
      { clientX := 15, clientY := 25 }).2.2.1 exPhotoB (by decide)⟩

end BaoRetroCamera
